import Mathlib

/-!
Shallow embedding of the dexter3.0 live data synchronization layer
(src/frontend/src/app/hooks/useWebSocket.ts) and of the mock arbitrage
scanners (src/unnamed/part_000, src/unnamed/part_002), together with
theorems settling the specification claims about them.

Numbers: JavaScript floating point numerics are modelled over the rationals,
timestamps over the integers, counters over the naturals.  Calls to
Math.random() are modelled as explicit parameters ranging over [0, 1).
-/

namespace Dexter

/-! ## Data model (useWebSocket.ts interfaces) -/

/-- Source: interface LivePriceUpdate in useWebSocket.ts. -/
structure LivePriceUpdate where
  pair : String
  price : ℚ
  change_24h : ℚ
  volume_24h : ℚ
  exchange : String
  timestamp : ℤ
deriving DecidableEq

/-- The identity key of a quote, as used by the price-update filter:
(pair, exchange). -/
def priceKey (p : LivePriceUpdate) : String × String := (p.pair, p.exchange)

/-- Source: the price_update branch of the onmessage handler.
`prev.filter (...)` drops any previous entry with the same (pair, exchange)
key, the new update is appended, and `.slice(-100)` keeps the last 100
entries; `l.drop (l.length - 100)` is exactly slice(-100). -/
def applyPriceUpdate (prev : List LivePriceUpdate) (u : LivePriceUpdate) :
    List LivePriceUpdate :=
  let filtered := prev.filter fun p => !(p.pair == u.pair && p.exchange == u.exchange)
  let appended := filtered ++ [u]
  appended.drop (appended.length - 100)

/-- The quote store obtained by processing a sequence of price_update
messages in arrival order, starting from the empty store. -/
def runPriceUpdates (msgs : List LivePriceUpdate) : List LivePriceUpdate :=
  msgs.foldl applyPriceUpdate []

/-- The last update in msgs whose (pair, exchange) key equals k, if any. -/
def lastWithKey (msgs : List LivePriceUpdate) (k : String × String) :
    Option LivePriceUpdate :=
  msgs.foldl (fun acc u => if priceKey u = k then some u else acc) none

/-- No two entries of the list share a (pair, exchange) key. -/
def distinctKeys (l : List LivePriceUpdate) : Prop :=
  l.Pairwise fun a b => priceKey a ≠ priceKey b

/-- Every entry of the store is the most recently received update
for its key among the processed messages. -/
def tracked (processed store : List LivePriceUpdate) : Prop :=
  ∀ p ∈ store, lastWithKey processed (priceKey p) = some p

/-! ### Store lemmas -/

lemma applyPriceUpdate_length_le (prev : List LivePriceUpdate) (u : LivePriceUpdate) :
    (applyPriceUpdate prev u).length ≤ 100 := by
  simp only [applyPriceUpdate, List.length_drop]
  omega

lemma mem_filtered_key_ne (prev : List LivePriceUpdate) (u a : LivePriceUpdate)
    (ha : a ∈ prev.filter fun p => !(p.pair == u.pair && p.exchange == u.exchange)) :
    priceKey a ≠ priceKey u := by
  rw [List.mem_filter] at ha
  have hb := ha.2
  simp only [Bool.not_eq_true', Bool.and_eq_false_iff, beq_eq_false_iff_ne] at hb
  intro hk
  have h1 : a.pair = u.pair := congrArg Prod.fst hk
  have h2 : a.exchange = u.exchange := congrArg Prod.snd hk
  rcases hb with hb | hb
  · exact hb h1
  · exact hb h2

lemma applyPriceUpdate_distinct (prev : List LivePriceUpdate) (u : LivePriceUpdate)
    (h : distinctKeys prev) : distinctKeys (applyPriceUpdate prev u) := by
  unfold distinctKeys at *
  unfold applyPriceUpdate
  apply List.Pairwise.sublist (List.drop_sublist _ _)
  rw [List.pairwise_append]
  refine ⟨h.filter _, List.pairwise_singleton _ _, ?_⟩
  intro a ha b hb
  have hb' : b = u := by simpa using hb
  rw [hb']
  exact mem_filtered_key_ne prev u a ha

lemma lastWithKey_append (msgs : List LivePriceUpdate) (u : LivePriceUpdate)
    (k : String × String) :
    lastWithKey (msgs ++ [u]) k =
      if priceKey u = k then some u else lastWithKey msgs k := by
  simp [lastWithKey, List.foldl_append]

lemma applyPriceUpdate_tracked (ms store : List LivePriceUpdate) (u : LivePriceUpdate)
    (h : tracked ms store) : tracked (ms ++ [u]) (applyPriceUpdate store u) := by
  intro p hp
  have hp' : p ∈ (store.filter fun q =>
      !(q.pair == u.pair && q.exchange == u.exchange)) ++ [u] :=
    (List.drop_sublist _ _).subset hp
  rcases List.mem_append.1 hp' with hf | hu
  · have hne := mem_filtered_key_ne store u p hf
    have hmem : p ∈ store := (List.mem_filter.1 hf).1
    rw [lastWithKey_append, if_neg fun he => hne he.symm]
    exact h p hmem
  · have hpu : p = u := by simpa using hu
    subst hpu
    rw [lastWithKey_append, if_pos rfl]

lemma runPriceUpdates_inv (msgs : List LivePriceUpdate) :
    ∀ (pre acc : List LivePriceUpdate),
      tracked pre acc → distinctKeys acc → acc.length ≤ 100 →
      tracked (pre ++ msgs) (msgs.foldl applyPriceUpdate acc) ∧
      distinctKeys (msgs.foldl applyPriceUpdate acc) ∧
      (msgs.foldl applyPriceUpdate acc).length ≤ 100 := by
  induction msgs with
  | nil =>
    intro pre acc ht hd hl
    simpa using ⟨ht, hd, hl⟩
  | cons u rest ih =>
    intro pre acc ht hd hl
    have h1 := applyPriceUpdate_tracked pre acc u ht
    have h2 := applyPriceUpdate_distinct acc u hd
    have h3 := applyPriceUpdate_length_le acc u
    have hrec := ih (pre ++ [u]) (applyPriceUpdate acc u) h1 h2 h3
    simpa [List.append_assoc] using hrec

/-- C2 (amended): the quote store keeps at most one entry per
(pair, exchange) key, each retained entry is the most recently received
update for its key (not necessarily the one with the greatest timestamp),
and the store never holds more than 100 entries. -/
theorem quote_store_retention (msgs : List LivePriceUpdate) :
    (runPriceUpdates msgs).length ≤ 100 ∧
    distinctKeys (runPriceUpdates msgs) ∧
    ∀ p ∈ runPriceUpdates msgs, lastWithKey msgs (priceKey p) = some p := by
  have h := runPriceUpdates_inv msgs [] []
    (by intro p hp; simp at hp) List.Pairwise.nil (by simp)
  rw [runPriceUpdates]
  exact ⟨h.2.2, h.2.1, by simpa using h.1⟩

/-- A newer-received update with an older timestamp. -/
def uOld : LivePriceUpdate :=
  { pair := "SOL/USDT", price := 171, change_24h := 0, volume_24h := 0
    exchange := "Binance", timestamp := 10 }

/-- Received after uOld, same (pair, exchange) key, smaller timestamp. -/
def uStale : LivePriceUpdate :=
  { pair := "SOL/USDT", price := 170, change_24h := 0, volume_24h := 0
    exchange := "Binance", timestamp := 5 }

/-- A quote for a different key. -/
def uOther : LivePriceUpdate :=
  { pair := "ETH/USDT", price := 3400, change_24h := 0, volume_24h := 0
    exchange := "Kraken", timestamp := 7 }

/-- C2 counterexample: after receiving an update with timestamp 10 and then
one with timestamp 5 for the same (pair, exchange) key, the store holds the
timestamp-5 entry, not the entry with the greatest timestamp: replacement is
by arrival order, the timestamps are never compared. -/
theorem quote_store_not_greatest_timestamp :
    uOld.pair = uStale.pair ∧ uOld.exchange = uStale.exchange ∧
    uStale.timestamp < uOld.timestamp ∧
    runPriceUpdates [uOld, uStale] = [uStale] ∧ uStale ≠ uOld := by
  decide

/-- Witness for quote_store_retention at a concrete message sequence. -/
theorem quote_store_retention_witness :
    uOther ∈ runPriceUpdates [uOld, uOther] ∧
    lastWithKey [uOld, uOther] (priceKey uOther) = some uOther :=
  ⟨by decide, (quote_store_retention [uOld, uOther]).2.2 uOther (by decide)⟩

/-! ## Remaining data model -/

/-- Source: interface LiveOpportunityUpdate in useWebSocket.ts. -/
structure LiveOpportunityUpdate where
  id : String
  pair : String
  profit_percentage : ℚ
  estimated_profit : ℚ
  exchanges : List String
  risk_level : String
  timestamp : ℤ
deriving DecidableEq

/-- Source: interface LiveMevAlert in useWebSocket.ts. -/
structure LiveMevAlert where
  id : String
  threat_type : String
  risk_level : String
  description : String
  affected_tokens : List String
  timestamp : ℤ
deriving DecidableEq

/-- The payload of an inbound envelope.  In the source the data field is
untyped (any) and each onmessage branch casts it; the embedding tags the
payload, and a branch whose cast does not match leaves its store unchanged. -/
inductive MsgData
  | price (u : LivePriceUpdate)
  | opportunity (o : LiveOpportunityUpdate)
  | mev (a : LiveMevAlert)
  | other (raw : String)
deriving DecidableEq

/-- Source: interface WebSocketMessage in useWebSocket.ts. -/
structure WebSocketMessage where
  message_type : String
  data : MsgData
  timestamp : ℤ
deriving DecidableEq

/-- The four connection status values of useWebSocket.ts. -/
inductive ConnStatus
  | connecting
  | connected
  | disconnected
  | error
deriving DecidableEq

/-- The mutable state of the useWebSocket hook: the React state cells, the
subscription set ref, the reconnect timer ref (delay in ms when scheduled)
and whether the underlying socket is in the OPEN readyState. -/
structure WSState where
  isConnected : Bool
  connectionStatus : ConnStatus
  priceUpdates : List LivePriceUpdate
  opportunityUpdates : List LiveOpportunityUpdate
  mevAlerts : List LiveMevAlert
  marketDepthUpdates : List MsgData
  lastMessage : Option WebSocketMessage
  messagesReceived : ℕ
  lastMessageTime : ℤ
  reconnectAttempts : ℕ
  pendingReconnect : Option ℕ
  subscriptions : List String
  socketOpen : Bool
deriving DecidableEq

/-! ## Connection lifecycle (connect, onclose, disconnect) -/

/-- Source: connect() in useWebSocket.ts.  If the socket is already OPEN the
function returns at once; otherwise the status becomes connecting and a new
socket is created (still in the CONNECTING readyState). -/
def connect (s : WSState) : WSState :=
  if s.socketOpen then s
  else { s with connectionStatus := ConnStatus.connecting }

/-- The backoff delay computed in the onclose handler:
Math.min(3000 * Math.pow(2, reconnectAttempts), 30000). -/
def reconnectDelay (n : ℕ) : ℕ := min (3000 * 2 ^ n) 30000

/-- Source: the onclose handler in connect().  isConnected and the status
are cleared.  The guard, the delay expression and the else-if all read
connectionStats.reconnectAttempts from the render closure in which the
connect callback was created (captured below), NOT the live counter: the
setConnectionStats functional update mutates only the live state.  On a
non-clean close with captured < 5 the live counter is incremented and a
timer is scheduled with delay computed from the captured counter; otherwise,
if the captured counter is at least 5, the status becomes error and no
timer is set. -/
def onClose (wasClean : Bool) (captured : ℕ) (s : WSState) : WSState :=
  let s1 := { s with isConnected := false
                   , connectionStatus := ConnStatus.disconnected
                   , socketOpen := false }
  if wasClean = false ∧ captured < 5 then
    { s1 with reconnectAttempts := s1.reconnectAttempts + 1
            , pendingReconnect := some (reconnectDelay captured) }
  else if 5 ≤ captured then
    { s1 with connectionStatus := ConnStatus.error }
  else s1

/-- The onclose handler as actually installed by the program: connect is
memoized with useCallback and dependency list [url], and url never changes,
so the connectionStats the handler closes over is the first-render value
with reconnectAttempts = 0. -/
def onCloseProgram (wasClean : Bool) (s : WSState) : WSState :=
  onClose wasClean 0 s

/-- n consecutive abnormal (wasClean = false) close events, each handled by
the installed onclose handler. -/
def iterateCloses : ℕ → WSState → WSState
  | 0, s => s
  | n + 1, s => iterateCloses n (onCloseProgram false s)

/-- Source: disconnect() in useWebSocket.ts.  The pending reconnect timer,
if any, is cleared synchronously, ws.current?.close() is initiated, and the
state is forced to disconnected.  The close() call does not complete
synchronously: the socket, if one exists, later delivers a close event to
the installed onclose handler; that delivery is modelled separately by
teardownClose. -/
def disconnect (s : WSState) : WSState :=
  { s with pendingReconnect := none
         , socketOpen := false
         , isConnected := false
         , connectionStatus := ConnStatus.disconnected }

/-- The close event that the ws.current?.close() inside disconnect()
triggers, handled by the installed onclose handler after disconnect()
has returned; closing a socket still in the CONNECTING readyState delivers
wasClean = false. -/
def teardownClose (wasClean : Bool) (s : WSState) : WSState :=
  onCloseProgram wasClean (disconnect s)

/-- The reconnect timer can fire only while a timeout is scheduled. -/
def canReconnectTimerFire (s : WSState) : Prop :=
  s.pendingReconnect ≠ none

/-! ## Message classification (the onmessage handler) -/

/-- Source: the onmessage handler in connect().  Every successfully parsed
message updates lastMessage, messagesReceived and lastMessageTime; the
switch on message_type then routes the payload to the matching store
(price: keyed replace and slice(-100); opportunity: dedup by id, prepend,
slice(0, 20); mev: prepend, slice(0, 10); depth: prepend, slice(0, 5));
any other message_type only logs. -/
def onMessage (s : WSState) (m : WebSocketMessage) (now : ℤ) : WSState :=
  let s1 := { s with lastMessage := some m
                   , messagesReceived := s.messagesReceived + 1
                   , lastMessageTime := now }
  if m.message_type = "price_update" then
    match m.data with
    | MsgData.price u => { s1 with priceUpdates := applyPriceUpdate s1.priceUpdates u }
    | _ => s1
  else if m.message_type = "opportunity_update" then
    match m.data with
    | MsgData.opportunity o =>
        { s1 with opportunityUpdates :=
            (o :: s1.opportunityUpdates.filter fun p => !(p.id == o.id)).take 20 }
    | _ => s1
  else if m.message_type = "mev_alert" then
    match m.data with
    | MsgData.mev a => { s1 with mevAlerts := (a :: s1.mevAlerts).take 10 }
    | _ => s1
  else if m.message_type = "market_depth" then
    { s1 with marketDepthUpdates := (m.data :: s1.marketDepthUpdates).take 5 }
  else s1

/-! ## Subscription registry and command dispatcher -/

inductive SubAction
  | subscribe
  | unsubscribe
deriving DecidableEq

/-- Source: interface SubscriptionRequest in useWebSocket.ts. -/
structure SubscriptionRequest where
  action : SubAction
  channels : List String
  pairs : Option (List String)
deriving DecidableEq

/-- Set.add on the subscriptions ref: appends the channel unless present. -/
def addChannel (subs : List String) (c : String) : List String :=
  if c ∈ subs then subs else subs ++ [c]

/-- Source: subscribe() in useWebSocket.ts.  Every channel is added to the
subscriptions set ref; then, whenever the socket is OPEN, one subscribe
command carrying the argument channels is sent on the wire, whether or not
the registry changed.  Returns the new state and the wire messages sent. -/
def subscribeCall (s : WSState) (channels : List String)
    (pairs : Option (List String)) : WSState × List SubscriptionRequest :=
  let s' := { s with subscriptions := channels.foldl addChannel s.subscriptions }
  if s.socketOpen then
    (s', [{ action := SubAction.subscribe, channels := channels, pairs := pairs }])
  else
    (s', [])

/-- The outbound intent commands listed in the spec, forwarded opaquely. -/
inductive IntentCommand
  | executeArbitrage (opportunityId : String) (amount slippage : ℚ)
  | executeTrade (payload : String)
  | cancelExecution (opportunityId : String)
  | toggleAutoTrading (enabled : Bool)
  | walletConnect (walletType address : String)
  | walletDisconnect (address : String)
deriving DecidableEq

/-- The observable outcome of sendMessage: either the serialized frame went
out on the wire, or the not-connected warning was logged. -/
inductive SendOutcome
  | wireSent
  | warnNotConnected
deriving DecidableEq

/-- Source: sendMessage() in useWebSocket.ts.  When the socket is OPEN the
message is serialized and sent; otherwise a warning is logged.  In neither
case is any state mutated: there is no outbound queue. -/
def sendMessage (s : WSState) (m : IntentCommand) : WSState × SendOutcome :=
  if s.socketOpen then (s, SendOutcome.wireSent)
  else (s, SendOutcome.warnNotConnected)

/-! ## Arbitrage scanner of the mock hook (src/unnamed/part_000) -/

/-- One per-exchange quote of the generated price data. -/
structure ExchangeQuote where
  exchange : String
  price : ℚ
  bid : ℚ
  ask : ℚ
deriving DecidableEq

/-- Source: the bestBuy fold in generateArbitrageOpportunities.  The source
starts from price Infinity so the first exchange always wins; the Option
models that seed, updating whenever ex.ask < best so far. -/
def bestBuy (exs : List ExchangeQuote) : Option (String × ℚ) :=
  exs.foldl
    (fun acc ex =>
      match acc with
      | none => some (ex.exchange, ex.ask)
      | some best => if ex.ask < best.2 then some (ex.exchange, ex.ask) else some best)
    none

/-- Source: the bestSell fold in generateArbitrageOpportunities, seeded with
exchange name empty and price 0, updating whenever ex.bid > best so far. -/
def bestSell (exs : List ExchangeQuote) : String × ℚ :=
  exs.foldl (fun acc ex => if ex.bid > acc.2 then (ex.exchange, ex.bid) else acc)
    ("", 0)

/-- One side of an emitted opportunity (name, price, fee); the liquidity
field of the source is a fresh Math.random() draw and is omitted here. -/
structure ArbSide where
  name : String
  price : ℚ
  fee : ℚ
deriving DecidableEq

/-- The opportunity record pushed by generateArbitrageOpportunities; the id
field (built from Date.now and Math.random) is omitted. -/
structure ArbOpportunity where
  pair : String
  buyExchange : ArbSide
  sellExchange : ArbSide
  profitPercentage : ℚ
  netProfit : ℚ
  requiredCapital : ℚ
  confidence : ℚ
deriving DecidableEq

/-- Source: the loop body of generateArbitrageOpportunities in part_000 for
one pair.  profitPercent = (bestSell.price - bestBuy.price) / bestBuy.price
* 100; a record is pushed only when profitPercent > 0.1, with netProfit =
profitPercent - 0.2, fees 0.001, requiredCapital 10000 and confidence =
70 + Math.random() * 30, the random draw passed as rConf ∈ [0, 1). -/
def generateArbOpportunityForPair (pair : String) (exchanges : List ExchangeQuote)
    (rConf : ℚ) : Option ArbOpportunity :=
  (bestBuy exchanges).bind fun bb =>
    let sell := bestSell exchanges
    let profitPercent := (sell.2 - bb.2) / bb.2 * 100
    if profitPercent > 1 / 10 then
      some { pair := pair
           , buyExchange := { name := bb.1, price := bb.2, fee := 1 / 1000 }
           , sellExchange := { name := sell.1, price := sell.2, fee := 1 / 1000 }
           , profitPercentage := profitPercent
           , netProfit := profitPercent - 2 / 10
           , requiredCapital := 10000
           , confidence := 70 + rConf * 30 }
    else none

/-! ## Arbitrage scanner of the dashboard (src/unnamed/part_002) -/

/-- The fields of the part_002 ArbitrageOpportunity that the claims are
about. -/
structure DashOpportunity where
  profitPercent : ℚ
  confidence : ℚ
  liquidity : ℚ
deriving DecidableEq

/-- Source: the confidence expression in generateMarketData:
Math.min(95, 50 + arbitrageProfit * 10 + minLiquidity / 1000000). -/
def dashConfidence (arbitrageProfit minLiquidity : ℚ) : ℚ :=
  min 95 (50 + arbitrageProfit * 10 + minLiquidity / 1000000)

/-- Source: the per-coin tail of generateMarketData in part_002, given the
already-folded best ask (minAsk), best bid (maxBid) and the minimum of the
two sides liquidity.  spreadPercent is spread / minAsk * 100 when the spread
is positive and 0 otherwise; arbitrageProfit subtracts the 0.2 fee estimate,
and an opportunity is pushed only when arbitrageProfit > 0.1. -/
def dashScanCoin (minAsk maxBid minLiquidity : ℚ) : Option DashOpportunity :=
  let spread := maxBid - minAsk
  let spreadPercent := if spread > 0 then spread / minAsk * 100 else 0
  let arbitrageProfit := spreadPercent - 2 / 10
  if arbitrageProfit > 1 / 10 then
    some { profitPercent := arbitrageProfit
         , confidence := dashConfidence arbitrageProfit minLiquidity
         , liquidity := minLiquidity }
  else none

/-! ## Concrete states used by witnesses -/

/-- A closed socket, all-empty hook state. -/
def baseState : WSState :=
  { isConnected := false, connectionStatus := ConnStatus.disconnected
  , priceUpdates := [], opportunityUpdates := [], mevAlerts := []
  , marketDepthUpdates := [], lastMessage := none, messagesReceived := 0
  , lastMessageTime := 0, reconnectAttempts := 0, pendingReconnect := none
  , subscriptions := [], socketOpen := false }

/-- A state whose socket is still CONNECTING, with a reconnect timer
already scheduled. -/
def stateConnecting : WSState :=
  { baseState with connectionStatus := ConnStatus.connecting
                 , pendingReconnect := some 12000 }

/-- A connected state with an OPEN socket. -/
def stateOpen : WSState :=
  { baseState with socketOpen := true, isConnected := true
                 , connectionStatus := ConnStatus.connected }

/-! ## Claim theorems: connection lifecycle -/

/-- C1 (code bug demonstration): the installed onclose handler reads the
first-render connectionStats closure, whose reconnectAttempts is 0, so
every abnormal close schedules a reconnect timer with delay
min(3000 * 2 ^ 0, 30000) = 3000 ms and increments the live counter; after
five abnormal closes the live counter is 5, yet a sixth abnormal close
still schedules a 3000 ms timer instead of min(3000 * 2 ^ 5, 30000) =
30000 ms, the status stays disconnected instead of becoming error, and the
counter passes 5: the error branch is unreachable. -/
theorem reconnect_backoff_stale_closure :
    (∀ s : WSState,
      (onCloseProgram false s).pendingReconnect = some 3000 ∧
      (onCloseProgram false s).reconnectAttempts = s.reconnectAttempts + 1 ∧
      (onCloseProgram false s).connectionStatus = ConnStatus.disconnected) ∧
    (iterateCloses 5 baseState).reconnectAttempts = 5 ∧
    (onCloseProgram false (iterateCloses 5 baseState)).pendingReconnect = some 3000 ∧
    (onCloseProgram false (iterateCloses 5 baseState)).connectionStatus
      ≠ ConnStatus.error ∧
    (onCloseProgram false (iterateCloses 5 baseState)).reconnectAttempts = 6 ∧
    reconnectDelay 5 = 30000 ∧ (3000 : ℕ) ≠ 30000 := by
  refine ⟨?_, by decide, by decide, by decide, by decide, by decide, by decide⟩
  intro s
  have h3 : reconnectDelay 0 = 3000 := by decide
  simp [onCloseProgram, onClose, h3]

/-- C5 counterexample: close() called while the socket is CONNECTING
cancels the pending timer, but the unclean close event delivered by the
ws.close() it issued re-enters the onclose handler and schedules a fresh
3000 ms reconnect timer after teardown, so a reconnect timer does fire
after close(). -/
theorem reconnect_timer_fires_after_close :
    stateConnecting.pendingReconnect = some 12000 ∧
    (disconnect stateConnecting).pendingReconnect = none ∧
    (teardownClose false stateConnecting).pendingReconnect = some 3000 ∧
    canReconnectTimerFire (teardownClose false stateConnecting) := by
  refine ⟨by decide, by decide, by decide, ?_⟩
  unfold canReconnectTimerFire
  decide

/-- C5 (amended): close() synchronously cancels any pending reconnect timer
from any state, so the previously scheduled timer never fires; but close()
does not suppress the onclose handling of the close event that its own
ws.close() triggers: a clean teardown close leaves no timer, while an
unclean one (as when ws.close() is issued during CONNECTING) schedules a
fresh 3000 ms reconnect timer after teardown. -/
theorem close_cancels_pending_timer_only (s : WSState) :
    (disconnect s).pendingReconnect = none ∧
    ¬ canReconnectTimerFire (disconnect s) ∧
    (teardownClose true s).pendingReconnect = none ∧
    (teardownClose false s).pendingReconnect = some 3000 := by
  have h3 : reconnectDelay 0 = 3000 := by decide
  refine ⟨rfl, ?_, ?_, ?_⟩
  · simp [canReconnectTimerFire, disconnect]
  · simp [teardownClose, onCloseProgram, onClose, disconnect]
  · simp [teardownClose, onCloseProgram, onClose, disconnect, h3]

/-- C9: connect() is a no-op when the underlying socket is already OPEN:
the state is returned unchanged, so every store and counter is untouched. -/
theorem connect_noop_when_open (s : WSState) (h : s.socketOpen = true) :
    connect s = s ∧
    (connect s).priceUpdates = s.priceUpdates ∧
    (connect s).connectionStatus = s.connectionStatus ∧
    (connect s).reconnectAttempts = s.reconnectAttempts := by
  have hc : connect s = s := by simp [connect, h]
  exact ⟨hc, by rw [hc], by rw [hc], by rw [hc]⟩

/-- Witness for connect_noop_when_open. -/
theorem connect_noop_when_open_witness :
    stateOpen.socketOpen = true ∧ connect stateOpen = stateOpen :=
  ⟨rfl, (connect_noop_when_open stateOpen rfl).1⟩

/-! ## Claim theorems: message classification frame -/

/-- C10: an envelope whose message_type is none of the four recognized kinds
still bumps messagesReceived, refreshes lastMessageTime and becomes
lastMessage, while the quote, opportunity, MEV alert and market depth stores
are all left unchanged. -/
theorem unknown_message_frame (s : WSState) (m : WebSocketMessage) (now : ℤ)
    (h1 : m.message_type ≠ "price_update")
    (h2 : m.message_type ≠ "opportunity_update")
    (h3 : m.message_type ≠ "mev_alert")
    (h4 : m.message_type ≠ "market_depth") :
    onMessage s m now =
      { s with lastMessage := some m
             , messagesReceived := s.messagesReceived + 1
             , lastMessageTime := now } ∧
    (onMessage s m now).priceUpdates = s.priceUpdates ∧
    (onMessage s m now).opportunityUpdates = s.opportunityUpdates ∧
    (onMessage s m now).mevAlerts = s.mevAlerts ∧
    (onMessage s m now).marketDepthUpdates = s.marketDepthUpdates := by
  refine ⟨?_, ?_, ?_, ?_, ?_⟩ <;> simp [onMessage, h1, h2, h3, h4]

/-- An execution_update envelope, routed to the discard branch. -/
def execMsg : WebSocketMessage :=
  { message_type := "execution_update", data := MsgData.other "status", timestamp := 42 }

/-- Witness for unknown_message_frame. -/
theorem unknown_message_frame_witness :
    execMsg.message_type ≠ "price_update" ∧
    execMsg.message_type ≠ "market_depth" ∧
    onMessage baseState execMsg 42 =
      { baseState with lastMessage := some execMsg
                     , messagesReceived := baseState.messagesReceived + 1
                     , lastMessageTime := 42 } :=
  ⟨by decide, by decide,
    (unknown_message_frame baseState execMsg 42 (by decide) (by decide)
      (by decide) (by decide)).1⟩

/-! ## Claim theorems: command dispatch and subscriptions -/

/-- C7: an intent command sent while the socket is not OPEN yields the
warn-not-connected outcome, distinct from the wire-sent outcome, and the
state is unchanged: nothing is queued for later delivery. -/
theorem send_rejected_when_disconnected (s : WSState) (m : IntentCommand)
    (h : s.socketOpen = false) :
    (sendMessage s m).2 = SendOutcome.warnNotConnected ∧
    (sendMessage s m).2 ≠ SendOutcome.wireSent ∧
    (sendMessage s m).1 = s := by
  simp [sendMessage, h]

/-- Witness for send_rejected_when_disconnected. -/
theorem send_rejected_when_disconnected_witness :
    baseState.socketOpen = false ∧
    (sendMessage baseState (IntentCommand.cancelExecution "op1")).2 =
      SendOutcome.warnNotConnected :=
  ⟨rfl, (send_rejected_when_disconnected baseState
    (IntentCommand.cancelExecution "op1") rfl).1⟩

/-- C6 counterexample: the second subscribe(["prices"]) call leaves the
registry unchanged, yet still sends one subscribe command on the wire, so
the no-change call does not send nothing. -/
theorem subscribe_resends_on_unchanged_registry :
    (subscribeCall (subscribeCall stateOpen ["prices"] none).1 ["prices"] none).1.subscriptions
      = (subscribeCall stateOpen ["prices"] none).1.subscriptions ∧
    (subscribeCall (subscribeCall stateOpen ["prices"] none).1 ["prices"] none).2.length
      = 1 := by
  decide

/-- C6 (amended): two subscribe(["prices"]) calls leave exactly one entry
for prices in the registry, and each call made while the socket is OPEN
sends exactly one subscribe command, whether or not the registry changed;
a call while the socket is not OPEN sends nothing. -/
theorem subscribe_idempotent_registry :
    (subscribeCall (subscribeCall stateOpen ["prices"] none).1 ["prices"] none).1.subscriptions
      = ["prices"] ∧
    (subscribeCall stateOpen ["prices"] none).2.length = 1 ∧
    (subscribeCall (subscribeCall stateOpen ["prices"] none).1 ["prices"] none).2.length
      = 1 ∧
    ∀ (s : WSState) (chs : List String) (ps : Option (List String)),
      s.socketOpen = false → (subscribeCall s chs ps).2 = [] := by
  refine ⟨by decide, by decide, by decide, ?_⟩
  intro s chs ps h
  simp [subscribeCall, h]

/-- Witness for subscribe_idempotent_registry. -/
theorem subscribe_idempotent_registry_witness :
    baseState.socketOpen = false ∧
    (subscribeCall baseState ["prices"] none).2 = [] :=
  ⟨rfl, subscribe_idempotent_registry.2.2.2 baseState ["prices"] none rfl⟩

/-! ## Claim theorems: arbitrage scanners -/

/-- C3: the mock scanner emits an opportunity only when profitPercentage =
(bestSell.bid - bestBuy.ask) / bestBuy.ask * 100 exceeds 0.1; in particular
when the best bid is at most the best ask (and the best ask is positive)
nothing is emitted, and likewise the dashboard scanner emits nothing when
its best bid is at most its best ask. -/
theorem scanner_emission_threshold :
    (∀ (pair : String) (exs : List ExchangeQuote) (r : ℚ) (o : ArbOpportunity),
      generateArbOpportunityForPair pair exs r = some o →
      o.profitPercentage > 1 / 10) ∧
    (∀ (exs : List ExchangeQuote) (be : String) (bp : ℚ),
      bestBuy exs = some (be, bp) → 0 < bp → (bestSell exs).2 ≤ bp →
      ∀ (pair : String) (r : ℚ), generateArbOpportunityForPair pair exs r = none) ∧
    (∀ (minAsk maxBid L : ℚ), maxBid ≤ minAsk → dashScanCoin minAsk maxBid L = none) := by
  refine ⟨?_, ?_, ?_⟩
  · intro pair exs r o h
    unfold generateArbOpportunityForPair at h
    cases hbb : bestBuy exs with
    | none => rw [hbb] at h; simp at h
    | some bb =>
      rw [hbb] at h
      simp only [Option.some_bind] at h
      split at h
      · rename_i hc
        obtain rfl : _ = o := Option.some.inj h
        exact hc
      · exact absurd h (by simp)
  · intro exs be bp hbb hpos hle pair r
    unfold generateArbOpportunityForPair
    rw [hbb]
    simp only [Option.some_bind]
    have hnum : (bestSell exs).2 - bp ≤ 0 := sub_nonpos.mpr hle
    have hdiv : ((bestSell exs).2 - bp) / bp ≤ 0 :=
      div_nonpos_iff.mpr (Or.inr ⟨hnum, hpos.le⟩)
    have hprof : ((bestSell exs).2 - bp) / bp * 100 ≤ 1 / 10 := by linarith
    rw [if_neg (not_lt.mpr hprof)]
  · intro minAsk maxBid L h
    have hsp : ¬ (maxBid - minAsk > 0) := by linarith
    simp only [dashScanCoin, if_neg hsp]
    norm_num

/-- A single-exchange quote list whose bid does not exceed its ask. -/
def exsLe : List ExchangeQuote :=
  [{ exchange := "ExA", price := 100, bid := 99, ask := 100 }]

/-- Witness for scanner_emission_threshold. -/
theorem scanner_emission_threshold_witness :
    bestBuy exsLe = some ("ExA", (100 : ℚ)) ∧ (0 : ℚ) < 100 ∧
    (bestSell exsLe).2 ≤ 100 ∧
    generateArbOpportunityForPair "SOL/USDT" exsLe 0 = none ∧
    (99 : ℚ) ≤ 100 ∧ dashScanCoin 100 99 0 = none :=
  ⟨by decide, by decide, by decide,
    scanner_emission_threshold.2.1 exsLe "ExA" 100 (by decide) (by decide)
      (by decide) "SOL/USDT" 0,
    by decide,
    scanner_emission_threshold.2.2 100 99 0 (by decide)⟩

/-- The two quotes of the C4 scenario: ExA ask 100 bid 99.90, ExB ask 99
bid 98.95, for one pair. -/
def exsC4 : List ExchangeQuote :=
  [ { exchange := "ExA", price := 100, bid := 999 / 10, ask := 100 }
  , { exchange := "ExB", price := 99, bid := 9895 / 100, ask := 99 } ]

/-- C4: on the concrete quote set the scanner picks bestBuy = ExB at 99 and
bestSell = ExA at 99.90, the emitted record carries profitPercentage =
(99.90 - 99) / 99 * 100 (which exceeds 0.1, so an opportunity is emitted),
for every random confidence draw. -/
theorem concrete_scan_emits (r : ℚ) :
    bestBuy exsC4 = some ("ExB", 99) ∧
    bestSell exsC4 = ("ExA", 999 / 10) ∧
    (generateArbOpportunityForPair "P" exsC4 r).map ArbOpportunity.profitPercentage
      = some ((999 / 10 - 99) / 99 * 100) ∧
    ((999 / 10 - 99) / 99 * 100 : ℚ) > 1 / 10 ∧
    (generateArbOpportunityForPair "P" exsC4 r).map (fun o => o.buyExchange.name)
      = some "ExB" ∧
    (generateArbOpportunityForPair "P" exsC4 r).map (fun o => o.sellExchange.name)
      = some "ExA" := by
  have hbb : bestBuy exsC4 = some ("ExB", 99) := by decide
  have hbs : bestSell exsC4 = ("ExA", 999 / 10) := by
    norm_num [bestSell, exsC4, List.foldl]
  have hgt : ((999 / 10 - 99) / 99 * 100 : ℚ) > 1 / 10 := by norm_num
  refine ⟨hbb, hbs, ?_, hgt, ?_, ?_⟩ <;>
  · unfold generateArbOpportunityForPair
    rw [hbb]
    simp only [Option.some_bind, hbs]
    rw [if_pos hgt]
    rfl

/-- C8 counterexample: the mock scanner assigns confidence = 70 + rand * 30;
at the valid random draw 0.9 the emitted record has confidence 97, above
the claimed 95 bound. -/
theorem mock_confidence_exceeds_95 :
    (0 : ℚ) ≤ 9 / 10 ∧ (9 / 10 : ℚ) < 1 ∧
    (generateArbOpportunityForPair "P" exsC4 (9 / 10)).map ArbOpportunity.confidence
      = some 97 ∧
    (95 : ℚ) < 97 := by
  have hbb : bestBuy exsC4 = some ("ExB", 99) := by decide
  have hbs : bestSell exsC4 = ("ExA", 999 / 10) := by
    norm_num [bestSell, exsC4, List.foldl]
  refine ⟨by norm_num, by norm_num, ?_, by norm_num⟩
  unfold generateArbOpportunityForPair
  rw [hbb]
  simp only [Option.some_bind, hbs]
  rw [if_pos (by norm_num : ((999 / 10 : ℚ) - 99) / 99 * 100 > 1 / 10)]
  simp only [Option.map_some']
  norm_num

lemma dashConfidence_bounds_of (arb L : ℚ) (harb : 1 / 10 < arb) (hL : 0 ≤ L) :
    0 ≤ dashConfidence arb L ∧ dashConfidence arb L ≤ 95 := by
  unfold dashConfidence
  constructor
  · apply le_min (by norm_num)
    have hLdiv : (0 : ℚ) ≤ L / 1000000 := div_nonneg hL (by norm_num)
    nlinarith
  · exact min_le_left _ _

/-- C8 (amended): for opportunities emitted by the dashboard scanner of
part_002 the confidence lies in [0, 100], never exceeds 95, and
dashConfidence is monotone non-decreasing in the profit and in the minimum
liquidity; the mock scanner of part_000 instead draws confidence as
70 + rand * 30, which is independent of profit and can exceed 95. -/
theorem dash_confidence_bounds :
    (∀ (a b L : ℚ) (o : DashOpportunity), dashScanCoin a b L = some o → 0 ≤ L →
      0 ≤ o.confidence ∧ o.confidence ≤ 95 ∧ o.confidence ≤ 100) ∧
    (∀ (p q L M : ℚ), p ≤ q → L ≤ M → dashConfidence p L ≤ dashConfidence q M) := by
  constructor
  · intro a b L o h hL
    simp only [dashScanCoin] at h
    split at h <;> split at h
    all_goals try exact Option.noConfusion h
    all_goals
      rename_i hc2
      have h' := Option.some.inj h
      subst h'
      have hb := dashConfidence_bounds_of _ L hc2 hL
      exact ⟨hb.1, hb.2, le_trans hb.2 (by norm_num)⟩
  · intro p q L M hpq hLM
    unfold dashConfidence
    refine min_le_min le_rfl ?_
    have h1 : p * 10 ≤ q * 10 := by linarith
    have h2 : L / 1000000 ≤ M / 1000000 := by gcongr
    linarith

/-- The record emitted by dashScanCoin 100 101 2000000. -/
def dashW : DashOpportunity :=
  { profitPercent := 4 / 5, confidence := 60, liquidity := 2000000 }

/-- Witness for dash_confidence_bounds. -/
lemma dashScanCoin_concrete : dashScanCoin 100 101 2000000 = some dashW := by
  norm_num [dashScanCoin, dashConfidence, dashW, min_def]

theorem dash_confidence_bounds_witness :
    dashScanCoin 100 101 2000000 = some dashW ∧ (0 : ℚ) ≤ 2000000 ∧
    0 ≤ dashW.confidence ∧ dashW.confidence ≤ 95 :=
  ⟨dashScanCoin_concrete, by norm_num,
    (dash_confidence_bounds.1 100 101 2000000 dashW dashScanCoin_concrete (by norm_num)).1,
    (dash_confidence_bounds.1 100 101 2000000 dashW dashScanCoin_concrete (by norm_num)).2.1⟩

end Dexter
